import Mathlib

/-!
Verification of the core logic of the IFN666 React-Native stock-watching
application against its natural-language specification.

The embedding is shallow: JavaScript strings are modelled as their character
sequences (`List Char`, so that every string operation used by the source —
`startsWith`, `toUpperCase`, element equality — is an executable, decidable
list operation), JavaScript numbers that the source only ever uses as
integers are modelled as `Int`/`Nat`, JavaScript `Date` values are modelled
as integer timestamps (the source only compares them and shifts them by a
whole number of days), and the two possible JavaScript bottom values
`undefined` and `null` are modelled explicitly where the source branches on
them.  A computation that throws a `TypeError` is modelled as returning
`none`.
-/

/-! ## SearchScreen: the instrument search component

Source: `src/client/screens/SearchScreen.js`. -/

/-- A tradable instrument as rendered by `SearchScreen` (`stock.Symbol`,
`stock.Name`, `stock.Industry`).  Field names follow the source.  String
fields are character sequences. -/
structure Instrument where
  Symbol : List Char
  Name : List Char
  Industry : List Char
deriving DecidableEq, Repr

/-- `filterBySearch` from `SearchScreen.js` lines 46-52:

`data.filter((stock) => stock.Symbol.startsWith(param.toUpperCase()) || stock.Name.startsWith(param))`

`s.startsWith(p)` is `p.isPrefixOf s` on character sequences and
`param.toUpperCase()` is `param.map Char.toUpper`. -/
def filterBySearch (data : List Instrument) (param : List Char) : List Instrument :=
  data.filter (fun stock =>
    (param.map Char.toUpper).isPrefixOf stock.Symbol || param.isPrefixOf stock.Name)

/-- The row-data computation of the `useEffect` at `SearchScreen.js` lines
108-114: `let data = stockList; if (searchQuery !== null) { data = filterBySearch(data, searchQuery); }`.
`none` models the `null` query (the initial state of `searchQuery`). -/
def searchScreenRowData (stockList : List Instrument) (searchQuery : Option (List Char)) :
    List Instrument :=
  match searchQuery with
  | some q => filterBySearch stockList q
  | none => stockList

/-! ## SearchScreen: watch-list initialisation (`initialiseData`)

Source: `src/client/screens/SearchScreen.js` lines 58-76.  The two reads
`getStocksFromDB()` (the remote/database source) and `_retrieveData()` (the
local `AsyncStorage` cache) each yield either an array of symbol strings or
one of the bottom values `undefined` / `null` (a missing value).  Watch-list
symbols are compared by `===`, so plain string equality. -/

/-- A JavaScript value produced by one of the two watch-list reads: an array
of symbol strings, or `undefined`, or `null`. -/
inductive JsArr where
  | undef : JsArr
  | null : JsArr
  | arr : List (List Char) → JsArr
deriving DecidableEq

/-- The guard used twice in `initialiseData`:
`x !== undefined || x !== null`.  (Note the source's `||`: the disjunction
is true for every value, including `undefined` and `null`.) -/
def jsNotUndefOrNotNull (x : JsArr) : Bool :=
  decide (x ≠ JsArr.undef) || decide (x ≠ JsArr.null)

/-- Calling `.map` on the value: its elements when it is an array;
`none` models the thrown `TypeError` when it is `undefined` or `null`. -/
def jsElems : JsArr → Option (List (List Char))
  | JsArr.arr xs => some xs
  | _ => none

/-- The body of the second loop of `initialiseData` (lines 67-73), one
iteration per element.  The accumulator is the pair
(current `newState`, symbols passed to `AsyncStorage.setItem` so far):

`let isInvalidElement = newState.includes(element); if (!isInvalidElement) { newState.push(element); AsyncStorage.setItem(element, element); }` -/
def dedupStep (acc : List (List Char) × List (List Char)) (element : List Char) :
    List (List Char) × List (List Char) :=
  let isInvalidElement := acc.1.contains element
  if !isInvalidElement then (acc.1 ++ [element], acc.2 ++ [element]) else acc

/-- `initialiseData` from `SearchScreen.js` lines 58-76, as a function of the
two resolved reads.  The result is `none` when the code throws (calling
`.map` on `undefined`/`null`), otherwise `some (finalState, persisted)`
where `finalState` is the array passed to `initialiseContextState` and
`persisted` lists the symbols written back via `AsyncStorage.setItem`.

Faithful to the source, including its two slips: both `if` guards use `||`
(hence always pass), and the second loop iterates `newStocksFromAsync`
again — `newStocksFromDB` is never read. -/
def initialiseData (newStocksFromDB newStocksFromAsync : JsArr) :
    Option (List (List Char) × List (List Char)) :=
  -- var newState = []; first loop: newStocksFromAsync.map((element) => newState.push(element))
  let afterFirst : Option (List (List Char)) :=
    if jsNotUndefOrNotNull newStocksFromAsync then
      jsElems newStocksFromAsync
    else some []
  match afterFirst with
  | none => none
  | some newState =>
    if jsNotUndefOrNotNull newStocksFromDB then
      -- second loop: the source iterates newStocksFromAsync here as well
      match jsElems newStocksFromAsync with
      | none => none
      | some elems => some (elems.foldl dedupStep (newState, []))
    else some (newState, [])

/-- The guard `x !== undefined || x !== null` holds for every value. -/
theorem jsNotUndefOrNotNull_true (x : JsArr) : jsNotUndefOrNotNull x = true := by
  cases x <;> rfl

/-- Folding `dedupStep` over elements that are all already contained in the
accumulated state changes nothing. -/
theorem foldl_dedupStep_of_contained :
    ∀ (l : List (List Char)) (acc : List (List Char) × List (List Char)),
      (∀ x ∈ l, x ∈ acc.1) → l.foldl dedupStep acc = acc := by
  intro l
  induction l with
  | nil => intro acc _; rfl
  | cons a t ih =>
    intro acc h
    have ha : a ∈ acc.1 := h a (List.mem_cons_self a t)
    have hstep : dedupStep acc a = acc := by
      simp [dedupStep, ha]
    rw [List.foldl_cons, hstep]
    exact ih acc (fun x hx => h x (List.mem_cons_of_mem a hx))

/-! ## Theorems for claims C1, C2, C3 -/

/-- C1 (code evaluated at the failing input): with the remote source holding
"AAPL" and an empty cache, `initialiseData` produces the empty merged state
and persists nothing — the remote-only symbol is dropped, because the second
loop iterates the cached array instead of the remote one.  The claim (and
the spec) require the merged set to be the union {"AAPL"}. -/
theorem C1_remote_symbol_dropped :
    initialiseData (JsArr.arr ["AAPL".data]) (JsArr.arr []) = some ([], []) := rfl

/-- C2 (code evaluated in general): whenever the cache read yields an array,
`initialiseData` returns exactly the cached entries (duplicates included)
and emits zero persistence instructions, whatever the remote read returned.
In particular the scenario remote = {"AAPL"}, cache = {} emits no
instruction for "AAPL", contradicting the claim's "exactly one". -/
theorem C2_no_persistence_instruction :
    ∀ (newStocksFromDB : JsArr) (elems : List (List Char)),
      initialiseData newStocksFromDB (JsArr.arr elems) = some (elems, []) := by
  intro db elems
  unfold initialiseData
  rw [jsNotUndefOrNotNull_true, jsNotUndefOrNotNull_true]
  simp only [jsElems, if_true]
  rw [foldl_dedupStep_of_contained elems (elems, []) (fun x hx => hx)]

/-- C3 (code evaluated at the failing input): when the cache read resolves to
`null` the always-true guard still lets the code call `.map` on it, so
initialisation throws a `TypeError` (modelled as `none`) instead of treating
the missing source as the empty set; the same happens for `undefined`. -/
theorem C3_null_cache_read_crashes :
    initialiseData (JsArr.arr ["AAPL".data]) JsArr.null = none ∧
    initialiseData (JsArr.arr ["AAPL".data]) JsArr.undef = none := ⟨rfl, rfl⟩

/-! ## Theorems for claims C4 and C10 -/

/-- C4: for every instrument list and every non-null, non-empty query,
`filterBySearch` returns exactly the stable subsequence of instruments whose
symbol starts with the uppercase-normalised query or whose name starts with
the query exactly as typed (case-sensitive on the name field). -/
theorem C4_filterBySearch_exact :
    ∀ (data : List Instrument) (param : List Char), param ≠ [] →
      (filterBySearch data param).Sublist data ∧
      ∀ stock, stock ∈ filterBySearch data param ↔
        stock ∈ data ∧
          ((param.map Char.toUpper).isPrefixOf stock.Symbol
            || param.isPrefixOf stock.Name) = true := by
  intro data param _
  refine ⟨List.filter_sublist data, ?_⟩
  intro stock
  simp [filterBySearch, List.mem_filter]

/-- Witness for C4 at a concrete input: the query "aap" (lower case) matches
the instrument with symbol "AAPL" by the uppercase-normalised symbol prefix. -/
theorem C4_filterBySearch_witness :
    (⟨"AAPL".data, "Apple".data, "Technology".data⟩ : Instrument) ∈
      filterBySearch
        [⟨"AAPL".data, "Apple".data, "Technology".data⟩,
         ⟨"AMZN".data, "Amazon".data, "Technology".data⟩] "aap".data :=
  ((C4_filterBySearch_exact _ "aap".data (by decide)).2 _).mpr ⟨by decide, by decide⟩

/-- C10: a `null` search query leaves the instrument list unchanged, and the
empty-string query also leaves it unchanged (every prefix test against the
empty query succeeds, so the filter keeps every row in order). -/
theorem C10_null_and_empty_query_identity :
    ∀ instruments : List Instrument,
      searchScreenRowData instruments none = instruments ∧
      searchScreenRowData instruments (some []) = instruments := by
  intro instruments
  refine ⟨rfl, ?_⟩
  show filterBySearch instruments [] = instruments
  unfold filterBySearch
  simp

/-! ## StockGraph: time-series windowing and label down-sampling

Source: `src/unnamed/part_000` (the `StockGraph` component file).  A point of
the fetched series carries a date label, an absolute value and a percentage
value (`element.labels`, `element.data`, `element.percentage`).  Dates are
modelled as integer timestamps measured in days, since the source only
builds `new Date()` shifted by a whole number of days and compares; the
current time is passed explicitly as `now`. -/

/-- One point of a fetched stock time series, fields named as in the source
(`stock.labels` date, `stock.data` absolute value, `stock.percentage`). -/
structure TimeSeriesPoint where
  labels : Int
  data : Int
  percentage : Int
deriving DecidableEq, Repr

/-- `filterByDate` from the `StockGraph` file, lines 19-25:

`newDate = now - param days; data.filter((stock) => new Date(stock.labels) > newDate)` -/
def filterByDate (now : Int) (data : List TimeSeriesPoint) (param : Int) :
    List TimeSeriesPoint :=
  let newDate := now - param
  data.filter (fun stock => decide (newDate < stock.labels))

/-- The day-window dispatch of the `StockGraph` effect (lines 97-100),
applied to the chronologically normalised series (the source has already
reversed `stocks` in place on line 97, so both branches read the reversed
array): `if (filter !== undefined) { newArray = filterByDate(stocks, filter); }`
with `newArray` otherwise left as the series itself.  `none` models the
`undefined` day-window (no windowing selected). -/
def windowByDays (now : Int) (series : List TimeSeriesPoint) (days : Option Int) :
    List TimeSeriesPoint :=
  match days with
  | some d => filterByDate now series d
  | none => series

/-- The windowing part of the `StockGraph` effect (lines 95-100) as seen by
its caller.  `let newArray = stocks.reverse()` calls the mutating JavaScript
`Array.prototype.reverse`, so after the effect the caller's `stocks` array
holds the reversed sequence; the first component is the caller-visible
content of `stocks` after the call, the second the displayed window. -/
def stockGraphWindow (now : Int) (stocks : List TimeSeriesPoint)
    (dayFilter : Option Int) : List TimeSeriesPoint × List TimeSeriesPoint :=
  let reversed := stocks.reverse
  (reversed, windowByDays now reversed dayFilter)

/-- `filterElements` from the `StockGraph` file, line 49:

`(arr, nth) => arr.filter((e, i) => i % nth === nth - 1)`

JavaScript `%` on integers is the truncating remainder, `Int.tmod`.  (For
`nth = 0` JavaScript yields `NaN % ... === -1`, false; the embedding agrees,
since a list index `i` is never `-1`.) -/
def filterElements {α : Type} (arr : List α) (nth : Int) : List α :=
  (arr.enum.filter (fun p => (p.1 : Int).tmod nth == nth - 1)).map Prod.snd

/-- Modelled from the spec: the named operation `downsampleLabels(labels,
targetCount)` does not exist in the source — the source has only
`filterElements` and the call site `filterElements(newIndexes, newArray.length / 5)`
(lines 101-103), which hard-wires a target count of 5.  Following the spec's
contract words, the derived step is `k = floor(length/targetCount)` and the
selection is `filterElements labels k`.  For `targetCount = 0` JavaScript
derives `k = Infinity` (or `NaN` on an empty input) and the selection
`i % Infinity === Infinity - 1` keeps nothing, hence the empty result. -/
def downsampleLabels {α : Type} (labels : List α) (targetCount : Int) : List α :=
  if targetCount = 0 then []
  else filterElements labels (Int.fdiv (labels.length : Int) targetCount)

/-- `filterElements` keeps nothing when the step is not positive: every list
index is nonnegative, so its truncating remainder is nonnegative and can
never equal `nth - 1 < 0`. -/
theorem filterElements_nonpos {α : Type} (arr : List α) (nth : Int)
    (h : nth ≤ 0) : filterElements arr nth = [] := by
  unfold filterElements
  rw [List.filter_eq_nil_iff.mpr, List.map_nil]
  intro p _
  have h1 : 0 ≤ ((p.1 : Int)).tmod nth := Int.tmod_nonneg nth (Int.ofNat_nonneg p.1)
  have h2 : nth - 1 < 0 := by omega
  simp only [beq_iff_eq]
  omega

/-- `filterElements` never returns more elements than its input. -/
theorem filterElements_length_le {α : Type} (arr : List α) (nth : Int) :
    (filterElements arr nth).length ≤ arr.length := by
  unfold filterElements
  rw [List.length_map]
  calc (arr.enum.filter (fun p => (p.1 : Int).tmod nth == nth - 1)).length
      ≤ arr.enum.length := List.length_filter_le _ _
    _ = arr.length := List.enum_length

/-! ## Theorems for claims C5 to C9 -/

/-- C5: for every series and every day count `d ≥ 0`, the day window
contains exactly the points whose timestamp is strictly greater than
`now - d`, and it is a stable sublist of the series. -/
theorem C5_windowByDays_exact :
    ∀ (now : Int) (S : List TimeSeriesPoint) (d : Int), 0 ≤ d →
      (windowByDays now S (some d)).Sublist S ∧
      ∀ p, p ∈ windowByDays now S (some d) ↔ p ∈ S ∧ now - d < p.labels := by
  intro now S d _
  refine ⟨List.filter_sublist S, ?_⟩
  intro p
  simp [windowByDays, filterByDate, List.mem_filter]

/-- Witness for C5 at a concrete input: with `now = 100` and a 5-day window,
the point stamped 99 is kept and the point stamped 90 is excluded. -/
theorem C5_windowByDays_witness :
    (⟨99, 1, 2⟩ : TimeSeriesPoint) ∈
      windowByDays 100 [⟨99, 1, 2⟩, ⟨90, 3, 4⟩] (some 5) ∧
    (⟨90, 3, 4⟩ : TimeSeriesPoint) ∉
      windowByDays 100 [⟨99, 1, 2⟩, ⟨90, 3, 4⟩] (some 5) :=
  ⟨((C5_windowByDays_exact 100 [⟨99, 1, 2⟩, ⟨90, 3, 4⟩] 5 (by decide)).2 _).mpr
      ⟨by decide, by decide⟩,
   fun h => absurd
      (((C5_windowByDays_exact 100 [⟨99, 1, 2⟩, ⟨90, 3, 4⟩] 5 (by decide)).2 _).mp h).2
      (by decide)⟩

/-- C6: selecting no day window (`filter === undefined`) leaves the series
the dispatch operates on unchanged, in the same order. -/
theorem C6_windowByDays_null_identity :
    ∀ (now : Int) (S : List TimeSeriesPoint), windowByDays now S none = S := by
  intro now S
  rfl

/-- C9 (code evaluated at the failing input): `stocks.reverse()` mutates the
caller's array in place, so after the effect runs with no day window the
caller's two-point series is reversed, not unchanged; an empty series still
windows to an empty result. -/
theorem C9_reverse_mutates_input :
    (stockGraphWindow 100 [⟨1, 10, 100⟩, ⟨2, 20, 200⟩] none).1
        = [⟨2, 20, 200⟩, ⟨1, 10, 100⟩] ∧
    (stockGraphWindow 100 [⟨1, 10, 100⟩, ⟨2, 20, 200⟩] none).1
        ≠ [⟨1, 10, 100⟩, ⟨2, 20, 200⟩] ∧
    windowByDays 100 ([] : List TimeSeriesPoint) none = [] := by
  refine ⟨rfl, ?_, rfl⟩
  decide

/-- C7 counterexample: the claim says a nonpositive target count returns the
input unchanged; on the code a one-label input with target count `-1` comes
back empty instead. -/
theorem C7_counterexample :
    downsampleLabels ([0] : List Nat) (-1) = [] ∧
    downsampleLabels ([0] : List Nat) (-1) ≠ [0] := by
  refine ⟨?_, ?_⟩ <;> decide

/-- C7 amended: `downsampleLabels` never returns more elements than its
input; and whenever the target count is nonpositive (hence the derived step
`k = floor(length/targetCount)` is nonpositive) it returns the empty
sequence — every label is dropped, but nothing faults. -/
theorem C7_downsample_bounds :
    ∀ {α : Type} (labels : List α) (targetCount : Int),
      (downsampleLabels labels targetCount).length ≤ labels.length ∧
      (targetCount ≤ 0 → downsampleLabels labels targetCount = []) := by
  intro α labels targetCount
  constructor
  · unfold downsampleLabels
    by_cases h : targetCount = 0
    · simp [h]
    · simp only [h, if_false]
      exact filterElements_length_le labels _
  · intro hle
    unfold downsampleLabels
    by_cases h : targetCount = 0
    · simp [h]
    · simp only [h, if_false]
      apply filterElements_nonpos
      exact Int.fdiv_nonpos (Int.ofNat_nonneg labels.length) hle

/-- Witness for C7 at a concrete input: three labels, target count `-2`. -/
theorem C7_downsample_bounds_witness :
    (downsampleLabels ([5, 6, 7] : List Nat) (-2)).length ≤ 3 ∧
    downsampleLabels ([5, 6, 7] : List Nat) (-2) = [] :=
  ⟨(C7_downsample_bounds [5, 6, 7] (-2)).1,
   (C7_downsample_bounds [5, 6, 7] (-2)).2 (by decide)⟩

/-- C8 counterexample: on 50 labels with target count 10 the code returns 10
labels, not the 5 the claim announces. -/
theorem C8_counterexample :
    ¬ (downsampleLabels (List.range 50) 10).length = 5 := by
  decide

/-- C8 amended: on 50 labels with target count 10 the derived step is
`k = 5` and the code keeps every 5th element starting at zero-based index
`k - 1 = 4`, so it returns the 10 labels at indices 4, 9, 14, ..., 49. -/
theorem C8_downsample_50_labels :
    downsampleLabels (List.range 50) 10
        = [4, 9, 14, 19, 24, 29, 34, 39, 44, 49] ∧
    (downsampleLabels (List.range 50) 10).length = 10 ∧
    Int.fdiv (50 : Int) 10 = 5 := by
  refine ⟨?_, ?_, ?_⟩ <;> decide
